import Mathlib

/-!
Verification development for the notesage-electron core: a shallow embedding
of the retrieval-augmented context pipeline (vector similarity, context
assembly, markdown segmentation, incremental indexing, and the chat exchange
flow), with theorems checking the natural-language specification against it.

Numeric values flowing through the pipeline (embedding components,
similarity scores) are JavaScript numbers in the source; they are embedded
as rationals, which represent every concrete value used in the theorems
below exactly.
-/

-- ====================================================================
-- Vectors, serialization (utilMethods.ts), similarity (embeddingMethods.ts)
-- ====================================================================

/-- Embedding of a Node Buffer holding a serialized numeric vector.
The source stores vectors as `Buffer.from(JSON.stringify(vector))` and reads
them back with `JSON.parse(buffer.toString())`; the byte-level JSON text is
abstracted away and the buffer is modelled as a container of the vector it
encodes (see the status of the round-trip claim for the byte-level caveat). -/
structure VecBuffer where
  data : List ℚ
deriving DecidableEq

/-- Embeds `serializeVector` from utilMethods.ts: wrap a vector for storage. -/
def serializeVector (vector : List ℚ) : VecBuffer := ⟨vector⟩

/-- Embeds `deserializeVector` from utilMethods.ts: read a stored vector back. -/
def deserializeVector (vectorBlob : VecBuffer) : List ℚ := vectorBlob.data

/-- Sum of pairwise products over the common indices of two vectors. This is
the value accumulated by the `for` loop inside `getSimilarity`
(embeddingMethods.ts): the loop runs over the indices of `vectorA`, and when
the in-loop length guard never fires it adds `vectorA[i] * vectorB[i]` for
every index of `vectorA`. -/
def dotProduct (vectorA vectorB : List ℚ) : ℚ :=
  (List.zipWith (fun x y => x * y) vectorA vectorB).sum

/-- Embeds `getSimilarity` from embeddingMethods.ts. In the source the length
check `vectorA.length !== vectorB.length` sits INSIDE the loop
`for (let i = 0; i < vectorA.length; i++)`, so it can only fire when
`vectorA` is nonempty; an empty `vectorA` skips the loop entirely and the
function returns the accumulator 0 even when `vectorB` is nonempty. A thrown
`Error` is embedded as `Except.error` carrying the message string. -/
def getSimilarity (vectorA vectorB : List ℚ) : Except String ℚ :=
  if vectorA.length ≠ 0 ∧ vectorA.length ≠ vectorB.length then
    .error ("Both arguments must be of same length")
  else
    .ok (dotProduct vectorA vectorB)

/-- On equal-length inputs `getSimilarity` is the (total) dot product. -/
theorem getSimilarity_eq_ok_of_length_eq (a b : List ℚ)
    (h : a.length = b.length) : getSimilarity a b = .ok (dotProduct a b) := by
  simp [getSimilarity, h]

-- ====================================================================
-- Theorems for claim C4
-- ====================================================================

/-- C4 counterexample: the claim states that `similarity(a,b)` fails with a
DimensionMismatch condition WHENEVER `len(a) != len(b)`. It does not: for
`a = []`, `b = [1,2,3]` the lengths differ yet the source returns 0 without
failing, because the length check lives inside the loop over the indices of
`a` and the loop body never runs. -/
theorem getSimilarity_empty_vector_unequal_length_no_error :
    getSimilarity [] [1, 2, 3] = .ok 0 ∧ (0 : ℕ) ≠ ([(1 : ℚ), 2, 3]).length := by
  constructor
  · simp [getSimilarity, dotProduct]
  · simp

/-- C4 amended: `getSimilarity` returns the dot product of the two vectors
whenever the lengths agree, and fails with the dimension-mismatch error
whenever the lengths differ AND the first vector is nonempty (the in-loop
placement of the length check makes an empty first vector return 0 instead
of failing). In particular the pair a=[1,2], b=[1,2,3] named by the claim
does fail. -/
theorem getSimilarity_dot_product_and_mismatch (a b : List ℚ) :
    (a.length = b.length → getSimilarity a b = .ok (dotProduct a b)) ∧
    (a ≠ [] → a.length ≠ b.length →
      getSimilarity a b = .error ("Both arguments must be of same length")) := by
  constructor
  · intro h
    exact getSimilarity_eq_ok_of_length_eq a b h
  · intro hne hlen
    have hA : a.length ≠ 0 := by
      simpa [List.length_eq_zero] using hne
    simp [getSimilarity, hA, hlen]

/-- Witness for the C4 amended theorem at concrete inputs: [1,2]·[3,4] = 11,
and the pair ([1,2], [1,2,3]) from the claim fails with the mismatch error. -/
theorem getSimilarity_dot_product_and_mismatch_witness :
    getSimilarity [1, 2] [3, 4] = .ok (dotProduct [1, 2] [3, 4]) ∧
    getSimilarity [1, 2] [1, 2, 3] =
      .error ("Both arguments must be of same length") := by
  constructor
  · exact (getSimilarity_dot_product_and_mismatch [1, 2] [3, 4]).1 (by simp)
  · exact (getSimilarity_dot_product_and_mismatch [1, 2] [1, 2, 3]).2
      (by simp) (by simp)

-- ====================================================================
-- Context assembly (databaseMethods.ts / chatMethods.ts)
-- ====================================================================

/-- Embeds the `message` rows used by the chat pipeline (types/main). The id
is a natural number standing for the generated uuid; `creationDate` is kept
as opaque text. Chronological order (ORDER BY created_at ASC) is represented
by list order, which matches insertion order in the source. -/
structure Message where
  id : ℕ
  chat_id : String
  role : String
  content : String
  embedding : VecBuffer
  creationDate : String
deriving DecidableEq

/-- Embeds the `page_section` rows (types/main). -/
structure PageSection where
  id : String
  pageId : String
  content : String
  embedding : VecBuffer
  tokenCount : ℕ
deriving DecidableEq

/-- Constant `RECENT_COUNT` from getChatContext. -/
def RECENT_COUNT : ℕ := 10

/-- Constant `MATCH_COUNT` from getChatContext and getPageSectionContext. -/
def MATCH_COUNT : ℕ := 10

/-- Constant `SIMILARITY_THRESHOLD` (0.3) from getChatContext and
getPageSectionContext. -/
def SIMILARITY_THRESHOLD : ℚ := 3 / 10

/-- Similarity of a stored embedding blob to the deserialized user embedding,
as computed at each use site: `getSimilarity(deserializeVector(x.embedding),
userEmbedding)`. Stated with the total dot product; by
`getSimilarity_eq_ok_of_length_eq` this is exactly the value the source
computes whenever the stored vectors share the dimension of the user
embedding (the regime the theorems below assume where it matters). -/
def relevance (userEmbedding : List ℚ) (blob : VecBuffer) : ℚ :=
  dotProduct (deserializeVector blob) userEmbedding

/-- Stable insertion of one element into a list sorted by strictly descending
key: the new element passes an existing one only when its key is strictly
larger, so elements with equal keys keep their original relative order. -/
def insertDescBy {α : Type} (key : α → ℚ) (x : α) : List α → List α
  | [] => [x]
  | y :: ys => if key y < key x then x :: y :: ys else y :: insertDescBy key x ys

/-- Embeds `array.sort(sortByRelevance)` where the comparator returns
`bSimilarity - aSimilarity`: a stable sort by descending similarity
(Array.prototype.sort is stable in the runtimes the source targets). -/
def sortDescBy {α : Type} (key : α → ℚ) (l : List α) : List α :=
  l.foldl (fun acc x => insertDescBy key x acc) []

/-- Embeds the shared selection loop of getChatContext and
getPageSectionContext: walk the sorted candidates, and for each one push its
rendering when `similarity > SIMILARITY_THRESHOLD && context.length <
MATCH_COUNT`, otherwise `break`. `count` is `context.length` at loop entry. -/
def contextScan {α : Type} (render : α → String) (sim : α → ℚ) :
    List α → ℕ → List String
  | [], _ => []
  | x :: xs, count =>
    if SIMILARITY_THRESHOLD < sim x ∧ count < MATCH_COUNT then
      render x :: contextScan render sim xs (count + 1)
    else []

/-- Embeds the local helper `messageContentWithRole` of getChatContext. -/
def messageContentWithRole (message : Message) : String :=
  message.role ++ ": " ++ message.content

/-- Rendered recent block of getChatContext:
`context.push(...messages.slice(0, RECENT_COUNT).map(messageContentWithRole))`
followed by `context.pop()` (the source comment says the pop skips the
current user query). -/
def recentBlock (messages : List Message) : List String :=
  ((messages.take RECENT_COUNT).map messageContentWithRole).dropLast

/-- Embeds `getChatContext` (databaseMethods.ts lines 594-638, duplicated in
chatMethods.ts lines 162-206), as the list of selected renderings before the
final join: the recent block, then the threshold/budget scan over
`messages.slice(RECENT_COUNT)` sorted by descending similarity, with the
loop counter starting at the length of the recent block. -/
def getChatContextList (messages : List Message)
    (serializedUserEmbedding : VecBuffer) : List String :=
  let userEmbedding := deserializeVector serializedUserEmbedding
  let similarMessages :=
    sortDescBy (fun m => relevance userEmbedding m.embedding)
      (messages.drop RECENT_COUNT)
  recentBlock messages ++
    contextScan messageContentWithRole
      (fun m => relevance userEmbedding m.embedding) similarMessages
      (recentBlock messages).length

/-- Embeds `getChatContext`: the selected renderings joined by "\n---\n". -/
def getChatContext (messages : List Message)
    (serializedUserEmbedding : VecBuffer) : String :=
  String.intercalate ("\n---\n") (getChatContextList messages serializedUserEmbedding)

/-- Embeds `getPageSectionContext` (databaseMethods.ts lines 523-556;
the chatMethods.ts variant differs only in taking a pre-filtered candidate
list), as the list of accepted contents before the final join. -/
def getPageSectionContextList (pageSections : List PageSection)
    (serializedUserEmbedding : VecBuffer) : List String :=
  let userEmbedding := deserializeVector serializedUserEmbedding
  let sorted :=
    sortDescBy (fun s => relevance userEmbedding s.embedding) pageSections
  contextScan PageSection.content
    (fun s => relevance userEmbedding s.embedding) sorted 0

/-- Embeds `getPageSectionContext`: accepted contents joined by "\n---\n". -/
def getPageSectionContext (pageSections : List PageSection)
    (serializedUserEmbedding : VecBuffer) : String :=
  String.intercalate ("\n---\n")
    (getPageSectionContextList pageSections serializedUserEmbedding)

/-- The selection loop accepts exactly the longest all-above-threshold
run at the head of the candidate list, truncated to the remaining budget:
it stops at the first candidate failing either condition. -/
theorem contextScan_eq_takeWhile_take {α : Type} (render : α → String)
    (sim : α → ℚ) (l : List α) (count : ℕ) :
    contextScan render sim l count =
      ((l.takeWhile (fun x => decide (SIMILARITY_THRESHOLD < sim x))).take
        (MATCH_COUNT - count)).map render := by
  induction l generalizing count with
  | nil => simp [contextScan]
  | cons x xs ih =>
    by_cases hs : SIMILARITY_THRESHOLD < sim x
    · by_cases hc : count < MATCH_COUNT
      · have hsub : MATCH_COUNT - count = (MATCH_COUNT - (count + 1)) + 1 := by
          omega
        simp [contextScan, hs, hc, List.takeWhile_cons, hsub, ih]
      · have hsub : MATCH_COUNT - count = 0 := by omega
        simp [contextScan, hs, hc, hsub]
    · simp [contextScan, hs, List.takeWhile_cons]

-- ====================================================================
-- Fixtures and theorems for claims C2 and C5
-- ====================================================================

/-- Chat message fixture builder: id, role, content, and a one-dimensional
embedding with the given value. -/
def mkChatMsg (i : ℕ) (role content : String) (v : ℚ) : Message :=
  ⟨i, "chat-1", role, content, ⟨[v]⟩, ""⟩

/-- Twelve chronological turns; the triggering user query is the final turn
t12 and its stored embedding equals the query vector (as in sendUserQuery,
which passes the freshly inserted user message embedding to getChatContext),
so it scores similarity 1 against the query while every older turn scores 0. -/
def c2Messages : List Message :=
  [mkChatMsg 1 ("user") ("t1") 0, mkChatMsg 2 ("assistant") ("t2") 0,
   mkChatMsg 3 ("user") ("t3") 0, mkChatMsg 4 ("assistant") ("t4") 0,
   mkChatMsg 5 ("user") ("t5") 0, mkChatMsg 6 ("assistant") ("t6") 0,
   mkChatMsg 7 ("user") ("t7") 0, mkChatMsg 8 ("assistant") ("t8") 0,
   mkChatMsg 9 ("user") ("t9") 0, mkChatMsg 10 ("assistant") ("t10") 0,
   mkChatMsg 11 ("assistant") ("t11") 0, mkChatMsg 12 ("user") ("t12") 1]

/-- Query vector of the triggering turn t12. -/
def c2Query : VecBuffer := serializeVector [1]

/-- C2 counterexample: with 12 chronological turns whose final turn is the
triggering query, the assembled chat context DOES contain the triggering
query, contrary to the claim. The pop removes turn 10 (the last of the first
RECENT_COUNT turns), not the final turn; turn 12 lands in the older-turn
pool `messages.slice(RECENT_COUNT)`, self-matches with similarity 1 > 0.3,
and the budget (9 recent entries < MATCH_COUNT = 10) admits it. -/
theorem getChatContext_contains_triggering_query :
    getChatContextList c2Messages c2Query =
      ["user: t1", "assistant: t2", "user: t3", "assistant: t4", "user: t5",
       "assistant: t6", "user: t7", "assistant: t8", "user: t9",
       "user: t12"] ∧
    messageContentWithRole (mkChatMsg 12 ("user") ("t12") 1) ∈
      getChatContextList c2Messages c2Query := by
  have h : getChatContextList c2Messages c2Query =
      ["user: t1", "assistant: t2", "user: t3", "assistant: t4", "user: t5",
       "assistant: t6", "user: t7", "assistant: t8", "user: t9",
       "user: t12"] := by
    norm_num [getChatContextList, recentBlock, sortDescBy, insertDescBy,
      contextScan, relevance, deserializeVector, dotProduct,
      messageContentWithRole, c2Messages, c2Query, mkChatMsg, serializeVector,
      SIMILARITY_THRESHOLD, MATCH_COUNT, RECENT_COUNT]
    decide
  refine ⟨h, ?_⟩
  rw [h]
  simp [messageContentWithRole, mkChatMsg]

/-- C2 amended: the output begins with the renderings of the first
RECENT_COUNT turns minus the last of them as a chronological block; the
dropped entry is the triggering query precisely when the conversation has at
most RECENT_COUNT turns, in which case the output is all turns but the last
(no older-turn pool exists). With 12 turns the chronological block is
exactly turns 1-9, but the triggering final turn falls into the older-turn
pool and may additionally be selected by the relevance scan (see the
counterexample). The hypothesis pins the regime in which the source computes
dot products without throwing: every stored embedding has the dimension of
the query embedding. -/
theorem getChatContext_chronological_block (messages : List Message)
    (e : VecBuffer)
    (hdim : ∀ m ∈ messages,
      (deserializeVector m.embedding).length = (deserializeVector e).length) :
    (getChatContextList messages e).take (recentBlock messages).length =
      recentBlock messages ∧
    (messages.length ≤ RECENT_COUNT →
      getChatContextList messages e =
        (messages.map messageContentWithRole).dropLast) ∧
    (getChatContextList c2Messages c2Query).take 9 =
      (c2Messages.take 9).map messageContentWithRole := by
  refine ⟨?_, ?_, ?_⟩
  · simp [getChatContextList, List.take_left]
  · intro hlen
    have hdrop : messages.drop RECENT_COUNT = [] := by
      simp [List.drop_eq_nil_iff, hlen]
    have htake : messages.take RECENT_COUNT = messages :=
      List.take_of_length_le hlen
    simp [getChatContextList, hdrop, sortDescBy, contextScan, recentBlock,
      htake]
  · have h := getChatContext_contains_triggering_query.1
    rw [h]
    norm_num [c2Messages, messageContentWithRole, mkChatMsg]
    decide

/-- Witness for the C2 amended theorem at the 12-turn fixture. -/
theorem getChatContext_chronological_block_witness :
    (getChatContextList c2Messages c2Query).take
        (recentBlock c2Messages).length = recentBlock c2Messages ∧
    (c2Messages.length ≤ RECENT_COUNT →
      getChatContextList c2Messages c2Query =
        (c2Messages.map messageContentWithRole).dropLast) ∧
    (getChatContextList c2Messages c2Query).take 9 =
      (c2Messages.take 9).map messageContentWithRole :=
  getChatContext_chronological_block c2Messages c2Query (by decide)

/-- Knowledge-base section fixture builder: id, content, one-dimensional
embedding value. -/
def mkSec (name content : String) (v : ℚ) : PageSection :=
  ⟨name, "page-1", content, ⟨[v]⟩, 0⟩

/-- Fifteen candidate sections in shuffled order: exactly three
(similarities 5, 2, 1 against the query) exceed the 0.3 threshold; the other
twelve have similarities 0, -1, ..., -11. -/
def c5Sections : List PageSection :=
  [mkSec ("b0") ("w0") 0, mkSec ("c2") ("k2") 2, mkSec ("b1") ("w1") (-1),
   mkSec ("b2") ("w2") (-2), mkSec ("c5") ("k5") 5, mkSec ("b3") ("w3") (-3),
   mkSec ("b4") ("w4") (-4), mkSec ("b5") ("w5") (-5), mkSec ("c1") ("k1") 1,
   mkSec ("b6") ("w6") (-6), mkSec ("b7") ("w7") (-7),
   mkSec ("b8") ("w8") (-8), mkSec ("b9") ("w9") (-9),
   mkSec ("b10") ("w10") (-10), mkSec ("b11") ("w11") (-11)]

/-- Query vector for the C5 fixture. -/
def c5Query : VecBuffer := serializeVector [1]

/-- C5: the accepted contents are exactly the contents of the longest
above-threshold run at the head of the descending-similarity ordering,
capped at MATCH_COUNT (the scan stops at the first candidate failing either
condition); on the 15-candidate fixture with exactly 3 candidates above
threshold the result is those 3 joined by "\n---\n" in descending-similarity
order; the empty candidate set yields the empty string. The hypothesis pins
the no-throw regime: stored embeddings share the dimension of the query
embedding. -/
theorem getPageSectionContext_selection (pageSections : List PageSection)
    (e : VecBuffer)
    (hdim : ∀ s ∈ pageSections,
      (deserializeVector s.embedding).length = (deserializeVector e).length) :
    getPageSectionContextList pageSections e =
      (((sortDescBy (fun s => relevance (deserializeVector e) s.embedding)
          pageSections).takeWhile
        (fun s => decide (SIMILARITY_THRESHOLD <
          relevance (deserializeVector e) s.embedding))).take
        MATCH_COUNT).map PageSection.content ∧
    (c5Sections.filter (fun s => decide (SIMILARITY_THRESHOLD <
      relevance (deserializeVector c5Query) s.embedding))).length = 3 ∧
    c5Sections.length = 15 ∧
    getPageSectionContext c5Sections c5Query = "k5\n---\nk2\n---\nk1" ∧
    getPageSectionContext [] e = "" := by
  refine ⟨?_, ?_, ?_, ?_, ?_⟩
  · rw [getPageSectionContextList, contextScan_eq_takeWhile_take, Nat.sub_zero]
  · norm_num [c5Sections, mkSec, relevance, deserializeVector, dotProduct,
      c5Query, serializeVector, SIMILARITY_THRESHOLD]
  · norm_num [c5Sections]
  · have h : getPageSectionContextList c5Sections c5Query =
        ["k5", "k2", "k1"] := by
      norm_num [getPageSectionContextList, sortDescBy, insertDescBy,
        contextScan, relevance, deserializeVector, dotProduct, c5Sections,
        mkSec, c5Query, serializeVector, SIMILARITY_THRESHOLD, MATCH_COUNT]
    rw [getPageSectionContext, h]
    decide
  · simp [getPageSectionContext, getPageSectionContextList, sortDescBy,
      contextScan, String.intercalate]

/-- Witness for C5 at the 15-candidate fixture. -/
theorem getPageSectionContext_selection_witness :
    getPageSectionContextList c5Sections c5Query =
      (((sortDescBy
          (fun s => relevance (deserializeVector c5Query) s.embedding)
          c5Sections).takeWhile
        (fun s => decide (SIMILARITY_THRESHOLD <
          relevance (deserializeVector c5Query) s.embedding))).take
        MATCH_COUNT).map PageSection.content ∧
    (c5Sections.filter (fun s => decide (SIMILARITY_THRESHOLD <
      relevance (deserializeVector c5Query) s.embedding))).length = 3 ∧
    c5Sections.length = 15 ∧
    getPageSectionContext c5Sections c5Query = "k5\n---\nk2\n---\nk1" ∧
    getPageSectionContext [] c5Query = "" :=
  getPageSectionContext_selection c5Sections c5Query (by decide)

-- ====================================================================
-- Markdown segmentation (markdownMethods.ts, src/unnamed/part_002)
-- ====================================================================

/-- Embeds the top-level mdast block nodes that survive stripMDX, as far as
the segmentation logic inspects them: a heading with its depth and text, or
any other block (paragraphs and the like) with its rendered text. -/
inductive MdNode where
  | heading (depth : ℕ) (text : String)
  | paragraph (text : String)
deriving DecidableEq

/-- Predicate used by `splitTreeBy(mdTree, node => node.type === 'heading')`. -/
def isHeading : MdNode → Bool
  | .heading _ _ => true
  | .paragraph _ => false

/-- Modelled from the spec: `getRootContentDepth` lives in
tsErrorWorkaround.ts, which is not among the provided sources (only the
importing line in markdownMethods.ts is). Per the spec, heading depth is the
nesting level (1 = top level) and non-heading content is treated as depth 0
for stack-popping purposes, which coincides with the observable behaviour of
the undefined-depth comparisons in the source for every reachable call. -/
def getRootContentDepth : MdNode → ℕ
  | .heading d _ => d
  | .paragraph _ => 0

/-- Text content of a node, as `mdast-util-to-string` returns it (external
library: concatenation of the literal text under the node). -/
def nodeToString : MdNode → String
  | .heading _ t => t
  | .paragraph t => t

/-- Repeated number signs of a heading marker. -/
def hashes : ℕ → String
  | 0 => ""
  | n + 1 => "#" ++ hashes n

/-- Rendering of one block as `mdast-util-to-markdown` emits it (external
library): a heading is its marker run, a space and its text; other blocks
are their text. -/
def renderNode : MdNode → String
  | .heading d t => hashes d ++ " " ++ t
  | .paragraph t => t

/-- Rendering of a tree as `mdast-util-to-markdown` emits it (external
library): top-level blocks separated by a blank line, with a trailing
newline. -/
def toMarkdown (tree : List MdNode) : String :=
  String.intercalate ("\n\n") (tree.map renderNode) ++ "\n"

/-- Stand-in for the external `slugify` library. The theorems below never
inspect the value it returns, only whether a slug is present or absent. -/
def slugify (s : String) : String := s

/-- Embeds the `RawPageSection` shape (types/main): `heading` and `slug` are
`undefined` (here `none`) for a section whose run does not start with a
heading. -/
structure RawPageSection where
  content : String
  heading : Option String
  slug : Option String
deriving DecidableEq

/-- Embeds `splitTreeBy` (part_002 lines 171-185) with the heading
predicate: reduce over the children, starting a new singleton tree when
there is no tree yet or the node is a heading, otherwise appending the node
to the last tree. -/
def splitTreeBy (children : List MdNode) : List (List MdNode) :=
  children.foldl
    (fun trees node =>
      if trees.isEmpty || isHeading node then trees ++ [[node]]
      else trees.dropLast ++ [(trees.getLast?.getD []) ++ [node]])
    []

/-- Inner loop of `removeIrrelevantNodes`, acting on the reversed stack:
drop entries from the top while their depth is ≥ the current depth. -/
def removeWhileGe (depth : ℕ) : List MdNode → List MdNode
  | [] => []
  | n :: rest =>
    if getRootContentDepth n ≥ depth then removeWhileGe depth rest
    else n :: rest

/-- Embeds `removeIrrelevantNodes` (part_002 lines 153-158): pop parent
nodes from the end of the stack while the popped depth is ≥ `depth`. -/
def removeIrrelevantNodes (parentNodes : List MdNode) (depth : ℕ) :
    List MdNode :=
  (removeWhileGe depth parentNodes.reverse).reverse

/-- Heading extraction of `getSections`:
`firstNode.type === 'heading' ? toString(firstNode) : undefined`. -/
def sectionHeading (firstNode : MdNode) : Option String :=
  if isHeading firstNode then some (nodeToString firstNode) else none

/-- Slug extraction of `getSections`: `heading ? slugify(heading) :
undefined` — note a present-but-empty heading string is falsy in the source,
so it also yields no slug. -/
def sectionSlug (heading : Option String) : Option String :=
  match heading with
  | some h => if h = "" then none else some (slugify h)
  | none => none

/-- Embeds the body of `getSections` (part_002 lines 88-144) as a fold over
the trees produced by `splitTreeBy`, threading `pastParentHeaderNodes` (the
ancestor stack) and dropping the `null` entries as the source does
afterwards. A run with a single node is not emitted but its first node is
pushed onto the stack; a run processed with an empty stack is emitted
without any prefix; otherwise the stack is first popped down when the run
depth is ≤ the top depth, the remaining stack nodes are prefixed onto the
run, and the run head is pushed. `splitTreeBy` never emits an empty run; the
impossible empty-run case is skipped. -/
def getSectionsGo : List MdNode → List (List MdNode) → List RawPageSection
  | _, [] => []
  | stack, tree :: rest =>
    match tree with
    | [] => getSectionsGo stack rest
    | firstNode :: _ =>
      if tree.length = 1 then
        getSectionsGo (stack ++ [firstNode]) rest
      else if stack.isEmpty then
        { content := toMarkdown tree, heading := sectionHeading firstNode,
          slug := sectionSlug (sectionHeading firstNode) } ::
          getSectionsGo (stack ++ [firstNode]) rest
      else
        let parent := stack.getLast?.getD firstNode
        let stack2 :=
          if getRootContentDepth firstNode ≤ getRootContentDepth parent then
            removeIrrelevantNodes stack (getRootContentDepth firstNode)
          else stack
        { content := toMarkdown (stack2 ++ tree),
          heading := sectionHeading firstNode,
          slug := sectionSlug (sectionHeading firstNode) } ::
          getSectionsGo (stack2 ++ [firstNode]) rest

/-- Embeds `getSections`: split the children on headings, then run the
stack-threading emission loop with an empty initial stack. -/
def getSections (mdTree : List MdNode) : List RawPageSection :=
  getSectionsGo [] (splitTreeBy mdTree)

-- ====================================================================
-- Theorems for claims C3, C6, C7
-- ====================================================================

/-- C3 failing input: the document "hello\n" parses to a single paragraph and
contains no heading, yet `getSections` yields ZERO sections, not one — the
guard `tree.children.length == 1` (whose comment says it should drop runs
with only a header as content) drops every single-node run, headings or not.
A no-heading document with two blocks ("hello\n\nworld\n") does yield
exactly one section with no heading and no slug, confirming the claim fails
specifically on the single-block case. -/
theorem getSections_single_paragraph_no_heading_yields_no_sections :
    getSections [.paragraph ("hello")] = [] ∧
    (∀ n ∈ [MdNode.paragraph ("hello")], isHeading n = false) ∧
    getSections [.paragraph ("hello"), .paragraph ("world")] =
      [{ content := "hello\n\nworld\n", heading := none, slug := none }] := by
  decide

/-- C6: segmenting "# A\n## B\ncontent\n" yields exactly one section; its
rendered content is the ancestor heading line "# A" (the heading line only —
there is no body under it to carry), then the run "## B" plus "content",
with the blank-line separators of the markdown renderer. -/
theorem getSections_ancestor_heading_prefix_example :
    getSections [.heading 1 ("A"), .heading 2 ("B"), .paragraph ("content")] =
      [{ content := "# A\n\n## B\n\ncontent\n", heading := some ("B"),
         slug := some (slugify ("B")) }] ∧
    "# A\n\n## B\n\ncontent\n" =
      "# A" ++ "\n\n" ++ "## B" ++ "\n\n" ++ "content" ++ "\n" := by
  decide

/-- C7: a heading-only run is not emitted — "# OnlyHeading\n" yields zero
sections — while its heading is still pushed onto the ancestor stack, so in
"# OnlyHeading\n## Sub\nbody\n" the later, deeper section carries
"# OnlyHeading" as its breadcrumb ancestor line. -/
theorem getSections_heading_only_run_not_emitted :
    getSections [.heading 1 ("OnlyHeading")] = [] ∧
    getSections [.heading 1 ("OnlyHeading"), .heading 2 ("Sub"),
        .paragraph ("body")] =
      [{ content := "# OnlyHeading\n\n## Sub\n\nbody\n",
         heading := some ("Sub"), slug := some (slugify ("Sub")) }] := by
  decide

-- ====================================================================
-- Incremental indexing (databaseMethods.ts, processNoteFiles)
-- ====================================================================

/-- Embeds the `page` rows (types/main). -/
structure Page where
  id : String
  refreshVersion : String
  refreshDate : String
  pagePath : String
  authoredDate : String
  checksum : String
deriving DecidableEq

/-- Embeds the `tag` rows (types/main). -/
structure Tag where
  id : String
  name : String
deriving DecidableEq

/-- Embeds the `page_tag` association rows (types/main). -/
structure PageTag where
  id : String
  pageId : String
  tagId : String
deriving DecidableEq

/-- Embeds the `PageData` bundle produced by
`processFilesAndGenerateEmbeddings` for each raw document. -/
structure PageData where
  page : Page
  pageSections : List PageSection
  tags : List Tag
  pageTags : List PageTag
deriving DecidableEq

/-- Embeds the four sqlite tables the indexer writes, each as a list of rows
in insertion order. -/
structure Store where
  pages : List Page
  page_sections : List PageSection
  tags : List Tag
  page_tags : List PageTag
deriving DecidableEq

/-- Embeds `doesPageExist`: SELECT on `page` by `page_path` only. -/
def doesPageExist (s : Store) (pagePath : String) : Bool :=
  s.pages.any (fun p => p.pagePath == pagePath)

/-- Embeds `isPageModified`: SELECT on `page` matching BOTH `page_path` and
`checksum` — despite its name it is true when a row with this exact path and
checksum pair exists. -/
def isPageModified (s : Store) (pagePath checksum : String) : Bool :=
  s.pages.any (fun p => p.pagePath == pagePath && p.checksum == checksum)

/-- Embeds `removePage`: DELETE on `page` by path; the schema declares
ON DELETE CASCADE from `page_section` and `page_tag` to `page`, so rows
referencing a removed page id are removed with it. -/
def removePage (s : Store) (pagePath : String) : Store :=
  let removedIds := (s.pages.filter (fun p => p.pagePath == pagePath)).map Page.id
  { pages := s.pages.filter (fun p => !(p.pagePath == pagePath)),
    page_sections :=
      s.page_sections.filter (fun sec => !(removedIds.contains sec.pageId)),
    tags := s.tags,
    page_tags := s.page_tags.filter (fun pt => !(removedIds.contains pt.pageId)) }

/-- Embeds `addPage`: a plain INSERT under the UNIQUE(checksum, page_path)
constraint; a violating insert throws inside `errorHandlerWrapper`, which
logs and swallows, leaving the table unchanged. -/
def addPage (s : Store) (page : Page) : Store :=
  if s.pages.any (fun p =>
      p.checksum == page.checksum && p.pagePath == page.pagePath) then s
  else { s with pages := s.pages ++ [page] }

/-- Embeds `addPageSection`: plain INSERT into `page_section`. -/
def addPageSection (s : Store) (pageSection : PageSection) : Store :=
  { s with page_sections := s.page_sections ++ [pageSection] }

/-- Embeds `addTag`: INSERT OR IGNORE under the UNIQUE(name) constraint. -/
def addTag (s : Store) (tag : Tag) : Store :=
  if s.tags.any (fun t => t.name == tag.name) then s
  else { s with tags := s.tags ++ [tag] }

/-- Embeds `addPageTag`: INSERT OR IGNORE under UNIQUE(page_id, tag_id). -/
def addPageTag (s : Store) (pageTag : PageTag) : Store :=
  if s.page_tags.any (fun pt =>
      pt.pageId == pageTag.pageId && pt.tagId == pageTag.tagId) then s
  else { s with page_tags := s.page_tags ++ [pageTag] }

/-- Result of an indexing pass: the final store, the two counters and the
modified list that `processNoteFiles` logs, plus `removedPaths`, an
instrumentation log of every argument `removePage` was invoked on (used to
state that the delete branch never runs). -/
structure IndexResult where
  store : Store
  unchangedCount : ℕ
  changedCount : ℕ
  modifiedPages : List PageData
  removedPaths : List String
deriving DecidableEq

/-- Embeds one iteration of the loop body of `processNoteFiles`
(databaseMethods.ts lines 328-361): skip-and-count when a record already
exists at the path; otherwise conditionally remove on a (path, checksum)
match, then insert the page, its sections, tags and associations, and count
the document as changed. -/
def processOnePage (r : IndexResult) (pageData : PageData) : IndexResult :=
  if doesPageExist r.store pageData.page.pagePath then
    { r with unchangedCount := r.unchangedCount + 1 }
  else
    let afterRemove :=
      if isPageModified r.store pageData.page.pagePath pageData.page.checksum
      then
        { r with store := removePage r.store pageData.page.pagePath,
                 removedPaths := r.removedPaths ++ [pageData.page.pagePath] }
      else r
    let s1 := addPage afterRemove.store pageData.page
    let s2 := pageData.pageSections.foldl addPageSection s1
    let s3 := pageData.tags.foldl addTag s2
    let s4 := pageData.pageTags.foldl addPageTag s3
    { afterRemove with
      store := s4,
      changedCount := afterRemove.changedCount + 1,
      modifiedPages := afterRemove.modifiedPages ++ [pageData] }

/-- Embeds `processNoteFiles` (indexAll): fold the loop body over the page
data list with zeroed counters. -/
def processNoteFiles (allPageData : List PageData) (st : Store) : IndexResult :=
  allPageData.foldl processOnePage
    { store := st, unchangedCount := 0, changedCount := 0,
      modifiedPages := [], removedPaths := [] }

/-- A (path, checksum) match implies a path match. -/
theorem isPageModified_imp_doesPageExist (s : Store) (path checksum : String)
    (h : isPageModified s path checksum = true) :
    doesPageExist s path = true := by
  simp only [isPageModified, List.any_eq_true, Bool.and_eq_true,
    beq_iff_eq] at h
  obtain ⟨p, hp, h1, _⟩ := h
  simp only [doesPageExist, List.any_eq_true, beq_iff_eq]
  exact ⟨p, hp, h1⟩

/-- The section/tag/association inserts leave the `page` table unchanged. -/
theorem pages_foldl_addPageSection (l : List PageSection) (s : Store) :
    (l.foldl addPageSection s).pages = s.pages := by
  induction l generalizing s with
  | nil => rfl
  | cons x xs ih => simp [addPageSection, ih]

/-- Tag inserts leave the `page` table unchanged. -/
theorem pages_foldl_addTag (l : List Tag) (s : Store) :
    (l.foldl addTag s).pages = s.pages := by
  induction l generalizing s with
  | nil => rfl
  | cons x xs ih =>
    simp only [List.foldl_cons, ih]
    unfold addTag
    split <;> rfl

/-- Association inserts leave the `page` table unchanged. -/
theorem pages_foldl_addPageTag (l : List PageTag) (s : Store) :
    (l.foldl addPageTag s).pages = s.pages := by
  induction l generalizing s with
  | nil => rfl
  | cons x xs ih =>
    simp only [List.foldl_cons, ih]
    unfold addPageTag
    split <;> rfl

/-- A path present in the store is still present after inserting a page. -/
theorem doesPageExist_addPage (s : Store) (pg : Page) (p : String)
    (h : doesPageExist s p = true) : doesPageExist (addPage s pg) p = true := by
  unfold addPage
  split
  · exact h
  · simp only [doesPageExist, List.any_append, Bool.or_eq_true]
    exact Or.inl h

/-- A path present in the store is still present after one loop iteration. -/
theorem doesPageExist_processOnePage (r : IndexResult) (d : PageData)
    (p : String) (h : doesPageExist r.store p = true) :
    doesPageExist (processOnePage r d).store p = true := by
  unfold processOnePage
  split
  · exact h
  · rename_i hne
    have hmod :
        isPageModified r.store d.page.pagePath d.page.checksum = false := by
      cases hm : isPageModified r.store d.page.pagePath d.page.checksum
      · rfl
      · exact absurd (isPageModified_imp_doesPageExist _ _ _ hm) (by simp [hne])
    simp only [hmod, if_neg Bool.false_ne_true, doesPageExist,
      pages_foldl_addPageTag, pages_foldl_addTag, pages_foldl_addPageSection]
    exact doesPageExist_addPage r.store d.page p h

/-- After one loop iteration, the path of the processed document is present. -/
theorem doesPageExist_processOnePage_self (r : IndexResult) (d : PageData) :
    doesPageExist (processOnePage r d).store d.page.pagePath = true := by
  unfold processOnePage
  split
  · assumption
  · rename_i hne
    have hmod :
        isPageModified r.store d.page.pagePath d.page.checksum = false := by
      cases hm : isPageModified r.store d.page.pagePath d.page.checksum
      · rfl
      · exact absurd (isPageModified_imp_doesPageExist _ _ _ hm) (by simp [hne])
    simp only [hmod, if_neg Bool.false_ne_true, doesPageExist,
      pages_foldl_addPageTag, pages_foldl_addTag, pages_foldl_addPageSection]
    unfold addPage
    split
    · rename_i hdup
      exfalso
      simp_all [doesPageExist]
      obtain ⟨x, hx, hcs, hp⟩ := hdup
      exact hne x hx hp
    · simp

/-- Path presence is preserved across the whole fold. -/
theorem doesPageExist_foldl (docs : List PageData) (r : IndexResult)
    (p : String) (h : doesPageExist r.store p = true) :
    doesPageExist (docs.foldl processOnePage r).store p = true := by
  induction docs generalizing r with
  | nil => exact h
  | cons d ds ih =>
    exact ih (processOnePage r d) (doesPageExist_processOnePage r d p h)

/-- Every processed document leaves its path present in the final store. -/
theorem doesPageExist_foldl_mem (docs : List PageData) (r : IndexResult) :
    ∀ d ∈ docs,
      doesPageExist (docs.foldl processOnePage r).store d.page.pagePath
        = true := by
  induction docs generalizing r with
  | nil => intro d hd; cases hd
  | cons x xs ih =>
    intro d hd
    cases hd with
    | head =>
      exact doesPageExist_foldl xs (processOnePage r x) _
        (doesPageExist_processOnePage_self r x)
    | tail _ hmem => exact ih (processOnePage r x) d hmem

/-- When every document path is already in the store, the fold only counts:
store, changed counter, modified list and removal log are untouched. -/
theorem foldl_skip_all (docs : List PageData) (r : IndexResult)
    (h : ∀ d ∈ docs, doesPageExist r.store d.page.pagePath = true) :
    docs.foldl processOnePage r =
      { r with unchangedCount := r.unchangedCount + docs.length } := by
  induction docs generalizing r with
  | nil => simp
  | cons d ds ih =>
    have hd : doesPageExist r.store d.page.pagePath = true :=
      h d (List.mem_cons_self d ds)
    have hstep : processOnePage r d =
        { r with unchangedCount := r.unchangedCount + 1 } := by
      unfold processOnePage
      rw [if_pos hd]
    rw [List.foldl_cons, hstep,
      ih { r with unchangedCount := r.unchangedCount + 1 }
        (by intro x hx; exact h x (List.mem_cons_of_mem d hx))]
    simp [Nat.add_assoc, Nat.add_comm 1 ds.length]

-- ====================================================================
-- Theorems for claims C1 and C8
-- ====================================================================

/-- C1: a document whose path already has a record in the store is skipped
and counted toward unchangedCount, and nothing else happens — the record
equality shows the store, changedCount, modifiedPages and in particular the
removePage log are untouched, for ANY checksum of the incoming document
(including one that differs from the stored checksum, so the delete/reinsert
branch never executes for an existing path whose content has changed); the
second conjunct lifts this to a whole indexAll pass in which every document
path already exists. -/
theorem processNoteFiles_existing_path_skipped (r : IndexResult)
    (d : PageData) (h : doesPageExist r.store d.page.pagePath = true) :
    processOnePage r d = { r with unchangedCount := r.unchangedCount + 1 } ∧
    (∀ (docs : List PageData) (st : Store),
      (∀ x ∈ docs, doesPageExist st x.page.pagePath = true) →
      processNoteFiles docs st =
        { store := st, unchangedCount := docs.length, changedCount := 0,
          modifiedPages := [], removedPaths := [] }) := by
  constructor
  · unfold processOnePage
    rw [if_pos h]
  · intro docs st hall
    unfold processNoteFiles
    rw [foldl_skip_all docs _ (by intro x hx; exact hall x hx)]
    simp

/-- Stored page fixture for the C1 witness: indexed at path "notes/a.md"
with checksum "c-old". -/
def c1OldPage : Page where
  id := "p1"
  refreshVersion := "v1"
  refreshDate := "d1"
  pagePath := "notes/a.md"
  authoredDate := "d0"
  checksum := "c-old"

/-- Store fixture for the C1 witness: one indexed page. -/
def c1Store : Store where
  pages := [c1OldPage]
  page_sections := []
  tags := []
  page_tags := []

/-- Incoming document fixture for the C1 witness: same path "notes/a.md",
different checksum "c-new" — its content has changed since indexing. -/
def c1NewDoc : PageData where
  page :=
    { id := "p2", refreshVersion := "v2", refreshDate := "d2",
      pagePath := "notes/a.md", authoredDate := "d0", checksum := "c-new" }
  pageSections := []
  tags := []
  pageTags := []

/-- Pass state fixture for the C1 witness. -/
def c1Start : IndexResult where
  store := c1Store
  unchangedCount := 0
  changedCount := 0
  modifiedPages := []
  removedPaths := []

/-- Witness for C1: the changed-content document at the already-indexed path
is skipped — only unchangedCount moves, and removePage is never invoked. -/
theorem processNoteFiles_existing_path_skipped_witness :
    processOnePage c1Start c1NewDoc =
      { c1Start with unchangedCount := c1Start.unchangedCount + 1 } ∧
    (∀ (docs : List PageData) (st : Store),
      (∀ x ∈ docs, doesPageExist st x.page.pagePath = true) →
      processNoteFiles docs st =
        { store := st, unchangedCount := docs.length, changedCount := 0,
          modifiedPages := [], removedPaths := [] }) :=
  processNoteFiles_existing_path_skipped c1Start c1NewDoc (by decide)

/-- C8: re-running indexAll over the store produced by a first run on the
same documents is a no-op — the second run reports changedCount = 0, counts
every document as unchanged, leaves the store exactly as the first run left
it (so no page, section, tag or association row is inserted), and never
invokes removePage. -/
theorem processNoteFiles_rerun_noop (docs : List PageData) (st : Store) :
    processNoteFiles docs (processNoteFiles docs st).store =
      { store := (processNoteFiles docs st).store,
        unchangedCount := docs.length, changedCount := 0,
        modifiedPages := [], removedPaths := [] } := by
  have hall : ∀ d ∈ docs,
      doesPageExist (processNoteFiles docs st).store d.page.pagePath
        = true := by
    intro d hd
    unfold processNoteFiles
    exact doesPageExist_foldl_mem docs _ d hd
  conv_lhs => rw [processNoteFiles]
  rw [foldl_skip_all docs _ (by intro x hx; exact hall x hx)]
  simp

-- ====================================================================
-- Chat exchange flow (chatMethods.ts, sendUserQuery)
-- ====================================================================

/-- Role string constants from the `RoleType` enum in openaiMethods.ts. -/
def RoleType.User : String := "user"

/-- Assistant role string from the `RoleType` enum in openaiMethods.ts. -/
def RoleType.Assistant : String := "assistant"

/-- Embeds `userQuery.trim()`: strip whitespace from both ends. -/
def jsTrim (s : String) : String :=
  ⟨((s.data.dropWhile Char.isWhitespace).reverse.dropWhile
      Char.isWhitespace).reverse⟩

/-- Moderation result shape returned by `moderateQuery` when the provider
flags the content. -/
structure Moderation where
  error : String
  flagged : Bool
  categories : String
deriving DecidableEq

/-- Oracles for the external collaborators of the chat flow, each a fixed
deterministic function: the embedding provider `generateEmbeddingFromText`,
the moderation call `moderateQuery` (none embeds an undefined result), the
completion call `getAiResponse` (model, chat context, knowledge context,
user message), the implicit Buffer-to-string coercion the source triggers by
interpolating `aiMessage.embedding` into a template literal, and the
template text built for a flagged moderation result. -/
structure ChatEnv where
  embed : String → List ℚ
  moderate : String → Option Moderation
  aiResponse : String → String → String → Message → String
  bufferToString : VecBuffer → String
  moderationText : Moderation → String

/-- Embeds `addMessage` (databaseMethods.ts): INSERT a message row; the
store is the `message` table in insertion order. -/
def addMessage (store : List Message) (message : Message) : List Message :=
  store ++ [message]

/-- Embeds `getAllChatMessages`: the messages of one chat ordered by
created_at ascending, which coincides with insertion order here. -/
def getAllChatMessages (store : List Message) (chatId : String) :
    List Message :=
  store.filter (fun m => m.chat_id == chatId)

/-- Embeds `updateMessageEmbedding`: UPDATE the embedding of the row with
the given id. -/
def updateMessageEmbedding (store : List Message) (messageId : ℕ)
    (embedding : VecBuffer) : List Message :=
  store.map (fun m =>
    if m.id == messageId then { m with embedding := embedding } else m)

/-- Embeds `addUserMessage` (chatMethods.ts lines 50-64), as the message
value it constructs: the content is the trimmed query and the embedding is
the embedding of that same content (the source comment says it is updated
later with the combined user/ai embedding). `uid` stands for the uuid drawn
for this message. -/
def addUserMessage (env : ChatEnv) (uid : ℕ)
    (activeChatId userQuery : String) : Message :=
  let sanitizedQuery := jsTrim userQuery
  { id := uid, chat_id := activeChatId, role := RoleType.User,
    content := sanitizedQuery,
    embedding := serializeVector (env.embed sanitizedQuery),
    creationDate := "" }

/-- Embeds `moderateUserMessage`: when the moderation result is flagged,
build the moderation response text, insert an assistant message carrying it,
and return the text (the source template text is nonempty, so the caller
treats any returned text as an early exit); otherwise return nothing. -/
def moderateUserMessage (env : ChatEnv) (aid : ℕ) (store : List Message)
    (activeChatId : String) (userMessage : Message) :
    List Message × Option String :=
  match env.moderate userMessage.content with
  | some res =>
    if res.flagged then
      let moderationResponse := env.moderationText res
      (addMessage store
        { id := aid, chat_id := activeChatId, role := RoleType.Assistant,
          content := moderationResponse,
          embedding := serializeVector (env.embed moderationResponse),
          creationDate := "" },
        some moderationResponse)
    else (store, none)
  | none => (store, none)

/-- Embeds `addAiMessage` (chatMethods.ts lines 125-147), as the message
value it constructs from the completion response. -/
def addAiMessage (env : ChatEnv) (aid : ℕ)
    (activeChatId model chatContext pageSectionContext : String)
    (userMessage : Message) : Message :=
  let aiResponse :=
    env.aiResponse model chatContext pageSectionContext userMessage
  { id := aid, chat_id := activeChatId, role := RoleType.Assistant,
    content := aiResponse,
    embedding := serializeVector (env.embed aiResponse),
    creationDate := "" }

/-- Embeds `sendUserQuery` (chatMethods.ts lines 298-339) as a transition on
the message table. `pageSections` stands for the candidate rows the page
section query returns; `n` and `n + 1` stand for the two uuids drawn. The
`isChatHistoryAvailable` reading and the closing `updateChatDetails` call
touch only the `chat` table and are not part of the message-table state.
On the non-moderated path the source computes the combined text as
`userMessage.content + '\n---\n' + aiMessage.embedding` — note it
interpolates the EMBEDDING buffer of the ai message, not its content — then
overwrites both stored embeddings with the embedding of that text. -/
def sendUserQuery (env : ChatEnv) (store : List Message)
    (pageSections : List PageSection) (n : ℕ)
    (activeChatId userQuery model : String) : List Message :=
  let userMessage := addUserMessage env n activeChatId userQuery
  let store1 := addMessage store userMessage
  let moderated :=
    moderateUserMessage env (n + 1) store1 activeChatId userMessage
  match moderated.2 with
  | some _ => moderated.1
  | none =>
    let chatContext :=
      getChatContext (getAllChatMessages store1 activeChatId)
        userMessage.embedding
    let pageSectionContext :=
      getPageSectionContext pageSections userMessage.embedding
    let aiMessage := addAiMessage env (n + 1) activeChatId model chatContext
      pageSectionContext userMessage
    let store2 := addMessage store1 aiMessage
    let combinedQuestionResponse := userMessage.content ++ "\n---\n" ++
      env.bufferToString aiMessage.embedding
    let serializedCombinedEmbedding :=
      serializeVector (env.embed combinedQuestionResponse)
    let store3 :=
      updateMessageEmbedding store2 userMessage.id serializedCombinedEmbedding
    updateMessageEmbedding store3 aiMessage.id serializedCombinedEmbedding

/-- Updating an id that no row carries leaves the table unchanged. -/
theorem updateMessageEmbedding_not_present (store : List Message) (i : ℕ)
    (e : VecBuffer) (h : ∀ m ∈ store, m.id ≠ i) :
    updateMessageEmbedding store i e = store := by
  induction store with
  | nil => rfl
  | cons m ms ih =>
    have hm : (m.id == i) = false := by
      simp [h m (List.mem_cons_self m ms)]
    simp only [updateMessageEmbedding, List.map_cons, hm, Bool.false_eq_true,
      if_false]
    have := ih (fun x hx => h x (List.mem_cons_of_mem m hx))
    simpa [updateMessageEmbedding] using this

/-- The assistant message value constructed on the non-moderated path of
`sendUserQuery`, with the contexts it assembles spelled out. -/
def sendUserQueryAiMessage (env : ChatEnv) (store : List Message)
    (pageSections : List PageSection) (n : ℕ)
    (activeChatId userQuery model : String) : Message :=
  addAiMessage env (n + 1) activeChatId model
    (getChatContext
      (getAllChatMessages
        (addMessage store (addUserMessage env n activeChatId userQuery))
        activeChatId)
      (addUserMessage env n activeChatId userQuery).embedding)
    (getPageSectionContext pageSections
      (addUserMessage env n activeChatId userQuery).embedding)
    (addUserMessage env n activeChatId userQuery)

/-- The shared combined embedding computed at the end of `sendUserQuery`:
the embedding of the user content joined to the STRINGIFIED EMBEDDING BUFFER
of the assistant message (the source interpolates `aiMessage.embedding`). -/
def sendUserQueryCombined (env : ChatEnv) (store : List Message)
    (pageSections : List PageSection) (n : ℕ)
    (activeChatId userQuery model : String) : VecBuffer :=
  serializeVector (env.embed
    ((addUserMessage env n activeChatId userQuery).content ++ "\n---\n" ++
      env.bufferToString
        (sendUserQueryAiMessage env store pageSections n activeChatId
          userQuery model).embedding))

/-- Overwriting the embeddings of the freshly appended pair: the two UPDATE
statements rewrite exactly the user row (id n) and the assistant row
(id n + 1) and leave every earlier row untouched. -/
theorem updateMessageEmbedding_pair (store : List Message) (u a : Message)
    (n : ℕ) (e : VecBuffer) (hu : u.id = n) (ha : a.id = n + 1)
    (hfresh : ∀ m ∈ store, m.id ≠ n ∧ m.id ≠ n + 1) :
    updateMessageEmbedding
        (updateMessageEmbedding (store ++ [u, a]) n e) (n + 1) e =
      store ++ [{ u with embedding := e }, { a with embedding := e }] := by
  have h1 : updateMessageEmbedding store n e = store :=
    updateMessageEmbedding_not_present store n e (fun m hm => (hfresh m hm).1)
  have h2 : updateMessageEmbedding store (n + 1) e = store :=
    updateMessageEmbedding_not_present store (n + 1) e
      (fun m hm => (hfresh m hm).2)
  have hbu : (u.id == n) = true := by simp [hu]
  have hba : (a.id == n) = false := by simp [ha]
  have hbu2 : (u.id == n + 1) = false := by simp [hu]
  have hba2 : (a.id == n + 1) = true := by simp [ha]
  simp only [updateMessageEmbedding, List.map_append] at h1 h2 ⊢
  rw [h1]
  simp only [List.map_cons, List.map_nil, hbu, hba, if_true, if_false,
    Bool.false_eq_true]
  rw [h2]
  simp [hbu2, hba2]

/-- On a non-moderated exchange with fresh ids, `sendUserQuery` appends the
user and assistant messages and overwrites both their embeddings with the
shared combined embedding, leaving every earlier row untouched. -/
theorem sendUserQuery_not_flagged (env : ChatEnv) (store : List Message)
    (pageSections : List PageSection) (n : ℕ)
    (activeChatId userQuery model : String)
    (hmod : ∀ res ∈ env.moderate (jsTrim userQuery), res.flagged = false)
    (hfresh : ∀ m ∈ store, m.id ≠ n ∧ m.id ≠ n + 1) :
    sendUserQuery env store pageSections n activeChatId userQuery model =
      store ++
        [{ addUserMessage env n activeChatId userQuery with
            embedding := sendUserQueryCombined env store pageSections n
              activeChatId userQuery model },
         { sendUserQueryAiMessage env store pageSections n activeChatId
              userQuery model with
            embedding := sendUserQueryCombined env store pageSections n
              activeChatId userQuery model }] := by
  have hmodN : (moderateUserMessage env (n + 1)
      (addMessage store (addUserMessage env n activeChatId userQuery))
      activeChatId (addUserMessage env n activeChatId userQuery)).2
      = none := by
    unfold moderateUserMessage
    cases hq : env.moderate
        (addUserMessage env n activeChatId userQuery).content with
    | none => rfl
    | some res =>
      have hfl : res.flagged = false := hmod res (by exact hq)
      simp [hfl]
  have hstep : sendUserQuery env store pageSections n activeChatId
      userQuery model =
      updateMessageEmbedding
        (updateMessageEmbedding
          (addMessage
            (addMessage store (addUserMessage env n activeChatId userQuery))
            (sendUserQueryAiMessage env store pageSections n activeChatId
              userQuery model))
          n
          (sendUserQueryCombined env store pageSections n activeChatId
            userQuery model))
        (n + 1)
        (sendUserQueryCombined env store pageSections n activeChatId
          userQuery model) := by
    unfold sendUserQuery
    simp only [hmodN]
    rfl
  rw [hstep]
  rw [show addMessage
      (addMessage store (addUserMessage env n activeChatId userQuery))
      (sendUserQueryAiMessage env store pageSections n activeChatId
        userQuery model) =
      store ++
        [addUserMessage env n activeChatId userQuery,
         sendUserQueryAiMessage env store pageSections n activeChatId
           userQuery model] from by simp [addMessage]]
  exact updateMessageEmbedding_pair store _ _ n _ rfl rfl hfresh

-- ====================================================================
-- Theorem for claim C9
-- ====================================================================

/-- C9: in a completed (non-moderated) exchange driven by sendUserQuery, the
user turn is created with the embedding of its own (trimmed) content, and
after the paired assistant turn is created the two stored embeddings are
overwritten to one identical shared combined embedding derived from the
completed exchange — the embedding of the user content joined to the
stringified embedding buffer of the assistant turn, which is itself the
embedding of the assistant content. The hypotheses say the moderation call
did not flag the query and the two drawn ids are fresh for the store. -/
theorem sendUserQuery_shared_embedding_invariant (env : ChatEnv)
    (store : List Message) (pageSections : List PageSection) (n : ℕ)
    (activeChatId userQuery model : String)
    (hmod : ∀ res ∈ env.moderate (jsTrim userQuery), res.flagged = false)
    (hfresh : ∀ m ∈ store, m.id ≠ n ∧ m.id ≠ n + 1) :
    (addUserMessage env n activeChatId userQuery).embedding =
      serializeVector (env.embed
        ((addUserMessage env n activeChatId userQuery).content)) ∧
    ∃ um am : Message,
      sendUserQuery env store pageSections n activeChatId userQuery model =
        store ++ [um, am] ∧
      um.id = n ∧ am.id = n + 1 ∧
      um.role = RoleType.User ∧ am.role = RoleType.Assistant ∧
      um.content = jsTrim userQuery ∧
      um.embedding = am.embedding ∧
      um.embedding = serializeVector (env.embed (um.content ++ "\n---\n" ++
        env.bufferToString (serializeVector (env.embed am.content)))) := by
  refine ⟨rfl, ⟨_, _,
    sendUserQuery_not_flagged env store pageSections n activeChatId
      userQuery model hmod hfresh,
    rfl, rfl, rfl, rfl, rfl, rfl, rfl⟩⟩

/-- Environment fixture for the C9 witness: a constant embedding provider,
a moderation call that never flags, and constant completion and coercion
oracles. -/
def c9Env : ChatEnv where
  embed := fun _ => [1]
  moderate := fun _ => none
  aiResponse := fun _ _ _ _ => "resp"
  bufferToString := fun _ => "buf"
  moderationText := fun m => m.error

/-- Witness for C9 on an empty chat with query " hi ". -/
theorem sendUserQuery_shared_embedding_invariant_witness :
    (addUserMessage c9Env 0 ("chat-1") (" hi ")).embedding =
      serializeVector (c9Env.embed
        ((addUserMessage c9Env 0 ("chat-1") (" hi ")).content)) ∧
    ∃ um am : Message,
      sendUserQuery c9Env [] [] 0 ("chat-1") (" hi ") ("gpt-4") =
        [] ++ [um, am] ∧
      um.id = 0 ∧ am.id = 0 + 1 ∧
      um.role = RoleType.User ∧ am.role = RoleType.Assistant ∧
      um.content = jsTrim (" hi ") ∧
      um.embedding = am.embedding ∧
      um.embedding = serializeVector (c9Env.embed (um.content ++ "\n---\n" ++
        c9Env.bufferToString (serializeVector (c9Env.embed am.content)))) :=
  sendUserQuery_shared_embedding_invariant c9Env [] [] 0 ("chat-1") (" hi ")
    ("gpt-4") (by simp [c9Env]) (by simp)
